import Mathlib

/-!
Shallow embedding of `src/main.py` (BrowserPdfScanner): an interactive tool
that drives a Firefox instance to open a PDF rendered in the browser and save
each page as a screenshot.

Pure fragments of the script become Lean functions.  The `run_interactive_cli`
while loop becomes a step function on an explicit `Session` record holding the
loop's local variables; the operator's prompt answers and the behaviour of the
selenium collaborator during one loop iteration are supplied as an `Event`.
Python exceptions become an explicit `Exc` channel: `ScanException` is one
constructor, every other exception (selenium lookup failures, `ValueError`,
`IndexError`, ...) is `native`.  A `StepResult` distinguishes continuing the
loop, terminating via `sys.exit`, and an uncaught exception escaping
`run_interactive_cli` (the `try` around the loop body catches only
`KeyboardInterrupt` and `EOFError`).
-/

namespace BrowserPdfScanner

/-- The `PDFScanError` IntEnum of `main.py`. -/
inductive PDFScanError where
  | NoError
  | DriverError
  | LoadError
  | PropertiesFetchError
  | ZoomError
  | PaginationError
  deriving DecidableEq, Repr

/-- The `SessionState` IntEnum of `main.py`. -/
inductive SessionState where
  | Start
  | Login
  | OpenPDF
  | DestinationDirectory
  | PrepareScan
  | ScanPDF
  | AnotherPDF
  | CloseSession
  deriving DecidableEq, Repr

/-- A Python exception escaping a collaborator call: either the script's own
`ScanException` carrying a `PDFScanError` code, or any other ("native")
exception such as selenium's `NoSuchElementException`, `ValueError`,
`IndexError`. -/
inductive Exc where
  | native (msg : String)
  | scan (code : PDFScanError) (msg : String)
  deriving DecidableEq, Repr

/-- A selenium rectangle (`element.rect` / `get_window_rect`): x, y, width,
height in pixels (fractional pixels are not modelled). -/
structure PageRect where
  x : Int
  y : Int
  width : Int
  height : Int
  deriving DecidableEq, Repr

/-- Result of `browser_pdf_get_properties`: the parsed page count plus the
first page's rectangle (the Python dict holds the rect keys and
"page_count"). -/
structure PdfProperties where
  pageCount : Int
  rect : PageRect
  deriving DecidableEq, Repr

deriving instance DecidableEq for Except

/-- One snapshot of what the selenium collaborator does when called during
document preparation: for each underlying driver call, either its result or
the message of the (non-`ScanException`) exception it raises.
`Except.error m` / `some m` means the call raises a native exception with
message `m`. -/
structure DriverCalls where
  minimizeRaises : Option String
  maximizeRaises : Option String
  scaleOptionValues : List String
  optionClickRaises : Option String
  numPagesFind : Except String String
  pageFind : Except String PageRect
  windowRect : PageRect
  setWindowRaises : Option String
  bodyFind : Except String Unit
  deriving DecidableEq, Repr

/-- Lift a possibly-raising driver call into the exception channel: a failed
element lookup or driver call raises a native selenium exception. -/
def liftNative {α : Type} : Except String α → Except Exc α
  | .ok a => .ok a
  | .error m => .error (.native m)

/-- Raise a native exception when the driver call reports one. -/
def raiseIf : Option String → Except Exc Unit
  | none => .ok ()
  | some m => .error (.native m)

/-- `browser_reset_window_size`: minimize then maximize the window. -/
def browser_reset_window_size (d : DriverCalls) : Except Exc Unit := do
  raiseIf d.minimizeRaises
  raiseIf d.maximizeRaises

/-- `browser_pdf_fit_page_width`: `find_elements` of the option tags (an empty
result is an early return, not an error); otherwise click every option whose
value attribute is "page-width". -/
def browser_pdf_fit_page_width (d : DriverCalls) : Except Exc Unit :=
  if d.scaleOptionValues.isEmpty then .ok ()
  else if d.scaleOptionValues.contains "page-width" then raiseIf d.optionClickRaises
  else .ok ()

/-- Python `str.split()` with no argument: split on runs of whitespace,
discarding empty pieces.  Leading and trailing whitespace never yields a
piece, so the `.strip()` preceding `.split()` in the source is absorbed.
`cur` accumulates the current word in reverse. -/
def pySplitWsGo (cur : List Char) : List Char → List (List Char)
  | [] => if cur.isEmpty then [] else [cur.reverse]
  | c :: cs =>
    if c.isWhitespace then
      if cur.isEmpty then pySplitWsGo [] cs else cur.reverse :: pySplitWsGo [] cs
    else pySplitWsGo (c :: cur) cs

/-- Python `str.split()` on a character list. -/
def pySplitWs (l : List Char) : List (List Char) := pySplitWsGo [] l

/-- Numeric value of a decimal digit string, most significant digit first. -/
def decVal (l : List Char) : Nat := l.foldl (fun a c => 10 * a + (c.toNat - 48)) 0

/-- Python `int(str)`: an optional sign followed by at least one digit (the
whitespace and underscore forms Python also accepts do not occur in the
"N of M" page label tokens). -/
def parseIntChars : List Char → Option Int
  | [] => none
  | '-' :: rest =>
    if rest.isEmpty then none
    else if rest.all Char.isDigit then some (-(decVal rest : Int)) else none
  | '+' :: rest =>
    if rest.isEmpty then none
    else if rest.all Char.isDigit then some (decVal rest : Int) else none
  | l => if l.all Char.isDigit then some (decVal l : Int) else none

/-- `browser_pdf_get_properties`: read the text of the element with id
"numPages", take its final whitespace-delimited token (`[-1]` on an empty
token list is an `IndexError`) and parse it as an integer (`ValueError` on
failure), then read the rect of the first element of class "page". -/
def browser_pdf_get_properties (d : DriverCalls) : Except Exc PdfProperties := do
  let txt ← liftNative d.numPagesFind
  let count ← (match (pySplitWs txt.data).getLast? with
    | none => (.error (Exc.native "IndexError") : Except Exc Int)
    | some tok =>
      match parseIntChars tok with
      | none => .error (Exc.native "ValueError")
      | some k => .ok k)
  let rect ← liftNative d.pageFind
  .ok ⟨count, rect⟩

/-- `browser_pdf_fit_page_height`: take the current window rect, replace its
height by the page's y offset plus the page's height, and set it.  Returns the
rect that was set. -/
def browser_pdf_fit_page_height (d : DriverCalls) (props : PdfProperties) :
    Except Exc PageRect := do
  let r := { d.windowRect with height := props.rect.y + props.rect.height }
  raiseIf d.setWindowRaises
  .ok r

/-- `browser_pdf_goto_start`: find the body element and send the HOME key. -/
def browser_pdf_goto_start (d : DriverCalls) : Except Exc Unit :=
  liftNative d.bodyFind

/-- `browser_pdf_next_page`: click the button titled "Next Page"; any
exception is converted into `ScanException(PaginationError, ...)`.  This is
the only place in the script that raises `ScanException`. -/
def browser_pdf_next_page (clickRes : Except String Unit) : Except Exc Unit :=
  match clickRes with
  | .ok _ => .ok ()
  | .error m =>
    .error (.scan .PaginationError
      ("Exception " ++ m ++ " while moving to next page of PDF file"))

/-- The five preparation calls of the `PrepareScan` state, in source order:
reset window size, fit page width, get properties, fit page height, go to
start. -/
def prepareDocument (d : DriverCalls) : Except Exc PdfProperties := do
  browser_reset_window_size d
  browser_pdf_fit_page_width d
  let props ← browser_pdf_get_properties d
  let _ ← browser_pdf_fit_page_height d props
  browser_pdf_goto_start d
  .ok props

/-- Digit character, as produced by Python `str(int)`. -/
def digitCh (n : Nat) : Char := Char.ofNat (48 + n)

/-- Fuel-driven decimal digits of `n`, most significant first.  Fuel `n + 1`
always suffices. -/
def natDecAux : Nat → Nat → List Char
  | 0, _ => []
  | fuel + 1, n =>
    if n < 10 then [digitCh n] else natDecAux fuel (n / 10) ++ [digitCh (n % 10)]

/-- Python `str(n)` for a nonnegative integer, as a character list. -/
def natDec (n : Nat) : List Char := natDecAux (n + 1) n

/-- Python `str.zfill(width)`: pad on the left with '0' up to `width`; never
truncates; a leading sign stays leftmost (the page indices here are unsigned,
the sign case is included for fidelity). -/
def zfillChars (l : List Char) (width : Nat) : List Char :=
  if width ≤ l.length then l
  else
    match l with
    | c :: rest =>
      if c = '-' ∨ c = '+' then c :: (List.replicate (width - l.length) '0' ++ rest)
      else List.replicate (width - l.length) '0' ++ l
    | [] => List.replicate width '0'

/-- `pad_size = int(log10(page_count))`: for `n ≥ 1` the floor of the decimal
logarithm is one less than the number of decimal digits of `n`. -/
def padSize (n : Nat) : Nat := (natDec n).length - 1

/-- The name of page `p`'s file: `page_` followed by `str(page)` zero-filled
to `pad_size`, followed by `.png`. -/
def pageFileName (pad p : Nat) : String :=
  "page_" ++ ⟨zfillChars (natDec p) pad⟩ ++ ".png"

/-- The file names produced by the `ScanPDF` loop for page count `n`, in the
order they are written. -/
def scanFilenames (n : Nat) : List String :=
  (List.range n).map (pageFileName (padSize n))

/-- Lexicographic code-point comparison of character lists: the order Python
string comparison, and hence `sorted()`, uses on these ASCII names. -/
def lexLt : List Char → List Char → Bool
  | [], [] => false
  | [], _ :: _ => true
  | _ :: _, [] => false
  | a :: as, b :: bs => if a < b then true else if b < a then false else lexLt as bs

/-- The names are strictly increasing in the lexicographic order; for a list
of pairwise-distinct names this says exactly `sorted(names) == names`. -/
def namesSorted (l : List String) : Prop :=
  l.Pairwise (fun a b => lexLt a.data b.data = true)

instance namesSortedDecidable (l : List String) : Decidable (namesSorted l) := by
  unfold namesSorted
  infer_instance

/-- The per-page body of the `ScanPDF` loop over `range(page_count)`: save a
screenshot of the current page to its file, then click Next Page.  `failAt`
is the first page index whose Next-Page click raises (pagination failures at
indices never reached do not occur).  Returns the files written, and the
`ScanException` if one was raised. -/
def scanPages (pad : Nat) (failAt : Option Nat) : List Nat → List String × Option Exc
  | [] => ([], none)
  | p :: ps =>
    let f := pageFileName pad p
    if failAt = some p then
      ([f], some (.scan .PaginationError
        "Exception while moving to next page of PDF file"))
    else
      let rest := scanPages pad failAt ps
      (f :: rest.1, rest.2)

/-- The mutable state of `run_interactive_cli`: the local variables of the
control loop, plus instrumentation recording the externally visible effects
(`browser.quit()` invocations, directories created, screenshot files
written). -/
structure Session where
  state : SessionState
  retCode : PDFScanError
  dstDirectory : String
  pdfProperties : Option PdfProperties
  browserOpen : Bool
  quitCount : Nat
  createdDirs : List String
  savedFiles : List String
  deriving DecidableEq, Repr

/-- The session at entry to the while loop: state `Start`, `ret_code`
`NoError`, empty destination (`pathlib.Path()`), empty properties dict,
`browser = None`. -/
def initSession : Session :=
  { state := .Start, retCode := .NoError, dstDirectory := "", pdfProperties := none,
    browserOpen := false, quitCount := 0, createdDirs := [], savedFiles := [] }

/-- One iteration of the while loop: the operator input and collaborator
behaviour consumed by the current state's branch.  `interrupt` is a
`KeyboardInterrupt` or `EOFError` raised at a prompt of the iteration.  An
event aimed at a different state than the current one is a no-op (each state
reads only its own prompts). -/
inductive Event where
  | interrupt
  | startGo (launchOk : Bool)
  | loginGo
  | openGo (pdfTabFound : Bool)
  | destInput (text : String) (pathExists : Bool) (confirm : String) (mkdirOk : Bool)
  | prepareRun (d : DriverCalls)
  | scanRun (failAt : Option Nat)
  | anotherAns (ans : String)
  | closeGo
  deriving DecidableEq, Repr

/-- How one loop iteration ends: continue the loop with an updated session,
terminate via `sys.exit(code)`, or let an uncaught exception escape
`run_interactive_cli` (the `try` around the body catches only
`KeyboardInterrupt` and `EOFError`; `SystemExit` and everything else
propagate). -/
inductive StepResult where
  | next (s : Session)
  | exited (code : Int) (s : Session)
  | crashed (e : Exc) (s : Session)
  deriving DecidableEq, Repr

/-- `if browser: browser.quit()` — `browser` is truthy from the moment
`browser_init_firefox` returns. -/
def quitIfBrowser (s : Session) : Session :=
  if s.browserOpen then { s with quitCount := s.quitCount + 1 } else s

/-- `pathlib.Path(text).resolve()`: resolution to an absolute path is an OS
affair orthogonal to every claim; modelled as the entered text itself. -/
def resolvePath (text : String) : String := text

/-- The argument passed to `sys.exit` at `CloseSession`. -/
def exitStatus (ret : PDFScanError) : Int :=
  if ret = .NoError then 0 else -1

/-- One iteration of the `run_interactive_cli` while loop. -/
def step (s : Session) (e : Event) : StepResult :=
  match e with
  | .interrupt => .exited (-1) (quitIfBrowser s)
  | .startGo launchOk =>
    if s.state = .Start then
      if launchOk then .next { s with browserOpen := true, state := .Login }
      else .next { s with retCode := .DriverError, state := .CloseSession }
    else .next s
  | .loginGo =>
    if s.state = .Login then .next { s with state := .OpenPDF } else .next s
  | .openGo found =>
    if s.state = .OpenPDF then
      if found then .next { s with state := .DestinationDirectory } else .next s
    else .next s
  | .destInput text pathExists confirm mkdirOk =>
    if s.state = .DestinationDirectory then
      if text = "" then .next s
      else
        let s1 := { s with dstDirectory := resolvePath text }
        if pathExists then
          if confirm = "y" ∨ confirm = "Y" then .next { s1 with state := .PrepareScan }
          else .next s1
        else
          if confirm = "y" ∨ confirm = "Y" then
            if mkdirOk then
              .next { s1 with createdDirs := s1.createdDirs ++ [s1.dstDirectory],
                              state := .PrepareScan }
            else .next s1
          else .next s1
    else .next s
  | .prepareRun d =>
    if s.state = .PrepareScan then
      match prepareDocument d with
      | .ok props => .next { s with pdfProperties := some props, state := .ScanPDF }
      | .error (.scan c _) => .next { s with retCode := c, state := .CloseSession }
      | .error exc => .crashed exc s
    else .next s
  | .scanRun failAt =>
    if s.state = .ScanPDF then
      match s.pdfProperties with
      | none => .crashed (.native "KeyError") s
      | some props =>
        if props.pageCount ≤ 0 then .crashed (.native "ValueError: math domain error") s
        else
          let n := props.pageCount.toNat
          match scanPages (padSize n) failAt (List.range n) with
          | (files, none) =>
            .next { s with savedFiles := s.savedFiles ++ files, state := .AnotherPDF }
          | (files, some exc) =>
            .crashed exc { s with savedFiles := s.savedFiles ++ files }
    else .next s
  | .anotherAns ans =>
    if s.state = .AnotherPDF then
      if ans = "y" ∨ ans = "Y" then .next { s with state := .OpenPDF }
      else .next { s with state := .CloseSession }
    else .next s
  | .closeGo =>
    if s.state = .CloseSession then
      .exited (exitStatus s.retCode) (quitIfBrowser s)
    else .next s

/-- Advance the session by one step, absorbing terminating results (used only
to phrase reachability of a session). -/
def stepNext (s : Session) (e : Event) : Session :=
  match step s e with
  | .next s1 => s1
  | _ => s

/-- The session reached after a trace of loop iterations. -/
def run (s : Session) (es : List Event) : Session := es.foldl stepNext s

/-- Run a trace to its final `StepResult`; events after a terminating result
are ignored. -/
def runRes (s : Session) : List Event → StepResult
  | [] => .next s
  | e :: es =>
    match step s e with
    | .next s1 => runRes s1 es
    | r => r

/-- Projection: the exit code, when the trace ended in `sys.exit`. -/
def exitCodeOf : StepResult → Option Int
  | .exited c _ => some c
  | _ => none

/-- Projection: the session carried by a step result. -/
def resultSession : StepResult → Session
  | .next s => s
  | .exited _ s => s
  | .crashed _ s => s

/-- Projection: the uncaught exception, when the trace ended in a crash. -/
def crashExcOf : StepResult → Option Exc
  | .crashed e _ => some e
  | _ => none

/-- The observable result of `main()`: either the state machine was never
started because a binary path failed to resolve (main prints a message and
falls through, so the interpreter exits with status 0), or
`run_interactive_cli` was invoked. -/
inductive MainResult where
  | abortedBeforeStateMachine (exitCode : Int)
  | ranStateMachine
  deriving DecidableEq, Repr

/-- `main()`: resolve the firefox path then the geckodriver path with
`resolve(strict=True)`; on the first failure print a message and return;
otherwise run the interactive CLI. -/
def mainRun (firefoxResolves geckodriverResolves : Bool) : MainResult :=
  if firefoxResolves && geckodriverResolves then .ranStateMachine
  else .abortedBeforeStateMachine 0

/-- Every character of the list is a decimal digit. -/
def digitList (l : List Char) : Prop := ∀ c ∈ l, 48 ≤ c.toNat ∧ c.toNat ≤ 57

/-- A collaborator snapshot on which all five preparation calls succeed and
the page-count label reads "1 of 3". -/
def okDriver : DriverCalls :=
  { minimizeRaises := none, maximizeRaises := none,
    scaleOptionValues := [], optionClickRaises := none,
    numPagesFind := .ok "1 of 3", pageFind := .ok ⟨0, 80, 800, 1000⟩,
    windowRect := ⟨0, 0, 1920, 1080⟩, setWindowRaises := none, bodyFind := .ok () }

/-- `okDriver` with the page-count element absent:
`find_element(By.ID, "numPages")` raises `NoSuchElementException`. -/
def noNumPagesDriver : DriverCalls :=
  { okDriver with numPagesFind := .error "NoSuchElementException" }

/-- A trace from launch to a completed 3-page scan, ending in the
`AnotherPDF` state. -/
def traceHappy : List Event :=
  [.startGo true, .loginGo, .openGo true, .destInput "scans" false "y" true,
   .prepareRun okDriver, .scanRun none]

/-- The happy trace, but the Next-Page click of page 0 raises, so the scan
loop raises `ScanException(PaginationError)` during the `ScanPDF` state. -/
def tracePaginationFail : List Event :=
  [.startGo true, .loginGo, .openGo true, .destInput "scans" false "y" true,
   .prepareRun okDriver, .scanRun (some 0)]

/-- A trace reaching `PrepareScan` whose properties query finds no page-count
element. -/
def tracePropsFail : List Event :=
  [.startGo true, .loginGo, .openGo true, .destInput "scans" false "y" true,
   .prepareRun noNumPagesDriver]

/-- A trace in which the operator confirms destination directory "dirA"
(the session advances to `PrepareScan`). -/
def traceFirstDestination : List Event :=
  [.startGo true, .loginGo, .openGo true, .destInput "dirA" false "y" true]

/-- The previous trace continued: scan the document, answer "y" to scan
another PDF, locate the new document, and enter a different directory
"dirB". -/
def traceSecondDocument : List Event :=
  traceFirstDestination ++
    [.prepareRun okDriver, .scanRun none, .anotherAns "y", .openGo true,
     .destInput "dirB" true "y" true]

/-- A session waiting for input in the `DestinationDirectory` state. -/
def destState0 : Session := { initSession with state := .DestinationDirectory }

/-- `destState0` after the operator enters directory name "w". -/
def destState1 : Session := { destState0 with dstDirectory := resolvePath "w" }

/-! Infrastructure: decimal digit strings. -/

theorem digitCh_toNat {d : Nat} (h : d < 10) : (digitCh d).toNat = 48 + d := by
  interval_cases d <;> decide

theorem digitCh_digit {d : Nat} (h : d < 10) :
    48 ≤ (digitCh d).toNat ∧ (digitCh d).toNat ≤ 57 := by
  rw [digitCh_toNat h]
  omega

theorem decVal_foldl_acc (l : List Char) (acc : Nat) :
    l.foldl (fun a c => 10 * a + (c.toNat - 48)) acc = acc * 10 ^ l.length + decVal l := by
  induction l generalizing acc with
  | nil => simp [decVal]
  | cons c cs ih =>
    simp only [decVal, List.foldl_cons, List.length_cons]
    rw [ih (10 * acc + (c.toNat - 48)), ih (10 * 0 + (c.toNat - 48))]
    ring

theorem decVal_cons (c : Char) (l : List Char) :
    decVal (c :: l) = (c.toNat - 48) * 10 ^ l.length + decVal l := by
  simp only [decVal, List.foldl_cons]
  rw [decVal_foldl_acc]
  simp [decVal]

theorem decVal_append (l1 l2 : List Char) :
    decVal (l1 ++ l2) = decVal l1 * 10 ^ l2.length + decVal l2 := by
  simp only [decVal, List.foldl_append]
  rw [decVal_foldl_acc]
  simp [decVal]

theorem decVal_lt (l : List Char) (h : digitList l) : decVal l < 10 ^ l.length := by
  induction l with
  | nil => simp [decVal]
  | cons c cs ih =>
    have hc := h c (by simp)
    have hcs : digitList cs := fun x hx => h x (by simp [hx])
    rw [decVal_cons]
    calc (c.toNat - 48) * 10 ^ cs.length + decVal cs
        < (c.toNat - 48) * 10 ^ cs.length + 10 ^ cs.length :=
          Nat.add_lt_add_left (ih hcs) _
      _ = (c.toNat - 48 + 1) * 10 ^ cs.length := by ring
      _ ≤ 10 * 10 ^ cs.length := Nat.mul_le_mul_right _ (by omega)
      _ = 10 ^ (c :: cs).length := by simp [List.length_cons]; ring

theorem decVal_replicate_zero (k : Nat) (l : List Char) :
    decVal (List.replicate k '0' ++ l) = decVal l := by
  induction k with
  | zero => simp
  | succ k ih =>
    rw [List.replicate_succ, List.cons_append, decVal_cons]
    simpa using ih

theorem digitList_natDecAux (fuel n : Nat) : digitList (natDecAux fuel n) := by
  induction fuel generalizing n with
  | zero => intro c hc; simp [natDecAux] at hc
  | succ fuel ih =>
    intro c hc
    by_cases h : n < 10
    · rw [natDecAux, if_pos h] at hc
      simp at hc
      subst hc
      exact digitCh_digit h
    · rw [natDecAux, if_neg h] at hc
      rcases List.mem_append.mp hc with hc | hc
      · exact ih (n / 10) c hc
      · simp at hc
        subst hc
        exact digitCh_digit (Nat.mod_lt n (by omega))

theorem decVal_natDecAux (fuel n : Nat) (h : n < 10 ^ fuel) :
    decVal (natDecAux fuel n) = n := by
  induction fuel generalizing n with
  | zero =>
    simp at h
    subst h
    simp [natDecAux, decVal]
  | succ fuel ih =>
    by_cases hn : n < 10
    · rw [natDecAux, if_pos hn, decVal_cons]
      simp [digitCh_toNat hn, decVal]
    · rw [natDecAux, if_neg hn, decVal_append]
      have hdiv : n / 10 < 10 ^ fuel := by
        rw [Nat.div_lt_iff_lt_mul (by norm_num)]
        calc n < 10 ^ (fuel + 1) := h
          _ = 10 ^ fuel * 10 := by ring
      rw [ih _ hdiv, decVal_cons]
      simp [digitCh_toNat (Nat.mod_lt n (by omega)), decVal]
      omega

theorem nat_lt_ten_pow_succ (n : Nat) : n < 10 ^ (n + 1) :=
  lt_of_lt_of_le (Nat.lt_pow_self (by norm_num) n)
    (Nat.pow_le_pow_right (by norm_num) (by omega))

theorem decVal_natDec (n : Nat) : decVal (natDec n) = n :=
  decVal_natDecAux (n + 1) n (nat_lt_ten_pow_succ n)

theorem digitList_natDec (n : Nat) : digitList (natDec n) :=
  digitList_natDecAux (n + 1) n

theorem natDecAux_length (fuel n : Nat) (hf : 0 < fuel) (h : n < 10 ^ fuel) :
    (natDecAux fuel n).length = Nat.log 10 n + 1 := by
  induction fuel generalizing n with
  | zero => omega
  | succ fuel ih =>
    by_cases hn : n < 10
    · rw [natDecAux, if_pos hn]
      simp [Nat.log_of_lt hn]
    · rw [natDecAux, if_neg hn]
      rcases Nat.eq_zero_or_pos fuel with h0 | h0
      · subst h0
        simp at h
        omega
      · have hdiv : n / 10 < 10 ^ fuel := by
          rw [Nat.div_lt_iff_lt_mul (by norm_num)]
          calc n < 10 ^ (fuel + 1) := h
            _ = 10 ^ fuel * 10 := by ring
        have hlog : Nat.log 10 n = Nat.log 10 (n / 10) + 1 := by
          have h1 := Nat.log_div_base 10 n
          have h2 : Nat.log 10 n ≠ 0 := by
            rw [Ne, Nat.log_eq_zero_iff]
            omega
          omega
        rw [List.length_append, ih _ h0 hdiv, hlog]
        simp

theorem natDec_length (n : Nat) : (natDec n).length = Nat.log 10 n + 1 :=
  natDecAux_length (n + 1) n (by omega) (nat_lt_ten_pow_succ n)

theorem padSize_eq_log (n : Nat) : padSize n = Nat.log 10 n := by
  simp [padSize, natDec_length]

theorem natDec_length_mono {p q : Nat} (h : p ≤ q) :
    (natDec p).length ≤ (natDec q).length := by
  simp only [natDec_length]
  exact Nat.add_le_add_right (Nat.log_mono_right h) 1

theorem natDec_length_pos (n : Nat) : 1 ≤ (natDec n).length := by
  simp [natDec_length]

/-! Infrastructure: zero-filling and the lexicographic order. -/

theorem zfillChars_eq_replicate (l : List Char) (w : Nat) (h : digitList l) :
    zfillChars l w = List.replicate (w - l.length) '0' ++ l := by
  unfold zfillChars
  split
  · next hw =>
    have h0 : w - l.length = 0 := by omega
    simp [h0]
  · next hw =>
    split
    · next c rest =>
      split
      · next hsign =>
        exfalso
        rcases hsign with rfl | rfl
        · exact absurd (h '-' (by simp)) (by decide)
        · exact absurd (h '+' (by simp)) (by decide)
      · next hsign => rfl
    · next => simp

theorem zfillChars_length (l : List Char) (w : Nat) (h : digitList l) :
    (zfillChars l w).length = max w l.length := by
  rw [zfillChars_eq_replicate l w h]
  simp [List.length_append]
  omega

theorem digitList_zfill (l : List Char) (w : Nat) (h : digitList l) :
    digitList (zfillChars l w) := by
  rw [zfillChars_eq_replicate l w h]
  intro c hc
  rcases List.mem_append.mp hc with hc | hc
  · rw [List.eq_of_mem_replicate hc]
    decide
  · exact h c hc

theorem decVal_zfill (l : List Char) (w : Nat) (h : digitList l) :
    decVal (zfillChars l w) = decVal l := by
  rw [zfillChars_eq_replicate l w h, decVal_replicate_zero]

theorem lexLt_irrefl (l : List Char) : lexLt l l = false := by
  induction l with
  | nil => rfl
  | cons c cs ih => simp [lexLt, ih, lt_irrefl]

theorem lexLt_append_left (pre as bs : List Char) :
    lexLt (pre ++ as) (pre ++ bs) = lexLt as bs := by
  induction pre with
  | nil => rfl
  | cons c p ih => simp [lexLt, ih, lt_irrefl]

theorem lexLt_append_right (as : List Char) (bs post : List Char)
    (h : as.length = bs.length) :
    lexLt (as ++ post) (bs ++ post) = lexLt as bs := by
  induction as generalizing bs with
  | nil =>
    have hbs : bs = [] := by
      cases bs with
      | nil => rfl
      | cons x xs => simp at h
    subst hbs
    show lexLt post post = lexLt [] []
    rw [lexLt_irrefl]
    rfl
  | cons a as ih =>
    cases bs with
    | nil => simp at h
    | cons b bs =>
      simp only [List.cons_append, lexLt, List.append_eq]
      rw [ih bs (by simpa using h)]

theorem lexLt_iff_decVal (as : List Char) (bs : List Char) (ha : digitList as)
    (hb : digitList bs) (h : as.length = bs.length) :
    lexLt as bs = true ↔ decVal as < decVal bs := by
  induction as generalizing bs with
  | nil =>
    have hbs : bs = [] := by
      cases bs with
      | nil => rfl
      | cons x xs => simp at h
    subst hbs
    simp [lexLt, decVal]
  | cons a as ih =>
    cases bs with
    | nil => simp at h
    | cons b bs =>
      have hlen : as.length = bs.length := by simpa using h
      have hda := ha a (by simp)
      have hdb := hb b (by simp)
      have ha' : digitList as := fun c hc => ha c (by simp [hc])
      have hb' : digitList bs := fun c hc => hb c (by simp [hc])
      rw [decVal_cons, decVal_cons, ← hlen]
      by_cases hab : a < b
      · rw [lexLt, if_pos hab]
        have hd : a.toNat < b.toNat := hab
        simp only [true_iff]
        calc (a.toNat - 48) * 10 ^ as.length + decVal as
            < (a.toNat - 48) * 10 ^ as.length + 10 ^ as.length :=
              Nat.add_lt_add_left (decVal_lt as ha') _
          _ = (a.toNat - 48 + 1) * 10 ^ as.length := by ring
          _ ≤ (b.toNat - 48) * 10 ^ as.length :=
              Nat.mul_le_mul_right _ (by omega)
          _ ≤ (b.toNat - 48) * 10 ^ as.length + decVal bs := Nat.le_add_right _ _
      · by_cases hba : b < a
        · rw [lexLt, if_neg hab, if_pos hba]
          have hd : b.toNat < a.toNat := hba
          simp only [Bool.false_eq_true, false_iff, not_lt]
          have hbslt : decVal bs < 10 ^ as.length := by
            rw [hlen]
            exact decVal_lt bs hb'
          have hlt : (b.toNat - 48) * 10 ^ as.length + decVal bs
              < (a.toNat - 48) * 10 ^ as.length + decVal as :=
            calc (b.toNat - 48) * 10 ^ as.length + decVal bs
                < (b.toNat - 48) * 10 ^ as.length + 10 ^ as.length :=
                  Nat.add_lt_add_left hbslt _
              _ = (b.toNat - 48 + 1) * 10 ^ as.length := by ring
              _ ≤ (a.toNat - 48) * 10 ^ as.length :=
                  Nat.mul_le_mul_right _ (by omega)
              _ ≤ (a.toNat - 48) * 10 ^ as.length + decVal as := Nat.le_add_right _ _
          exact le_of_lt hlt
        · have hch : a = b := le_antisymm (not_lt.mp hba) (not_lt.mp hab)
          subst hch
          rw [lexLt, if_neg hab, if_neg hba, ih bs ha' hb' hlen]
          exact (Nat.add_lt_add_iff_left).symm

/-! Infrastructure: the page file names. -/

theorem pageFileName_data (pad p : Nat) :
    (pageFileName pad p).data =
      "page_".data ++ (zfillChars (natDec p) pad ++ ".png".data) := by
  simp [pageFileName, String.data_append]

theorem pageFileName_inj (pad : Nat) {p q : Nat}
    (h : pageFileName pad p = pageFileName pad q) : p = q := by
  have hdata := congrArg String.data h
  rw [pageFileName_data, pageFileName_data] at hdata
  have hmid : zfillChars (natDec p) pad = zfillChars (natDec q) pad :=
    List.append_cancel_right (List.append_cancel_left hdata)
  have hval : decVal (zfillChars (natDec p) pad) = decVal (zfillChars (natDec q) pad) := by
    rw [hmid]
  rwa [decVal_zfill _ _ (digitList_natDec p), decVal_zfill _ _ (digitList_natDec q),
    decVal_natDec, decVal_natDec] at hval

theorem pageFileName_lexLt (pad : Nat) {p q : Nat} (hpq : p < q)
    (hw : (zfillChars (natDec p) pad).length = (zfillChars (natDec q) pad).length) :
    lexLt (pageFileName pad p).data (pageFileName pad q).data = true := by
  rw [pageFileName_data, pageFileName_data, lexLt_append_left,
    lexLt_append_right _ _ _ hw,
    lexLt_iff_decVal _ _ (digitList_zfill _ _ (digitList_natDec p))
      (digitList_zfill _ _ (digitList_natDec q)) hw,
    decVal_zfill _ _ (digitList_natDec p), decVal_zfill _ _ (digitList_natDec q),
    decVal_natDec, decVal_natDec]
  exact hpq

theorem scanFilenames_length (n : Nat) : (scanFilenames n).length = n := by
  simp [scanFilenames]

theorem scanFilenames_nodup (n : Nat) : (scanFilenames n).Nodup :=
  (List.nodup_range n).map_on fun _ _ _ _ hxy => pageFileName_inj _ hxy

theorem zfill_width_uniform {n x : Nat} (hx : x < n)
    (h : (natDec (n - 1)).length ≤ max (padSize n) 1) :
    (zfillChars (natDec x) (padSize n)).length = max (padSize n) 1 := by
  have h1 : 1 ≤ (natDec x).length := natDec_length_pos x
  have h2 : (natDec x).length ≤ (natDec (n - 1)).length :=
    natDec_length_mono (by omega)
  rw [zfillChars_length _ _ (digitList_natDec x)]
  omega

theorem scanFilenames_sorted (n : Nat)
    (h : (natDec (n - 1)).length ≤ max (padSize n) 1) :
    namesSorted (scanFilenames n) := by
  unfold namesSorted scanFilenames
  rw [List.pairwise_map]
  refine List.Pairwise.imp_of_mem ?_ (List.pairwise_lt_range n)
  intro a b ha hb hab
  exact pageFileName_lexLt _ hab
    ((zfill_width_uniform (List.mem_range.mp ha) h).trans
      (zfill_width_uniform (List.mem_range.mp hb) h).symm)

/-! Infrastructure: state machine invariants. -/

theorem stepNext_invariant (s : Session) (e : Event)
    (h : s.retCode = .NoError ∨ s.state = .CloseSession) :
    (stepNext s e).retCode = .NoError ∨ (stepNext s e).state = .CloseSession := by
  rcases h with h | h
  · cases e with
    | interrupt => simp [stepNext, step, h]
    | startGo launchOk =>
      by_cases hs : s.state = .Start
      · cases launchOk <;> simp [stepNext, step, hs, h]
      · simp [stepNext, step, hs, h]
    | loginGo =>
      by_cases hs : s.state = .Login <;> simp [stepNext, step, hs, h]
    | openGo found =>
      by_cases hs : s.state = .OpenPDF
      · cases found <;> simp [stepNext, step, hs, h]
      · simp [stepNext, step, hs, h]
    | destInput text pathExists confirm mkdirOk =>
      by_cases hs : s.state = .DestinationDirectory
      · by_cases ht : text = ""
        · simp [stepNext, step, hs, ht, h]
        · by_cases hc : confirm = "y" ∨ confirm = "Y" <;> cases pathExists <;>
            cases mkdirOk <;> simp [stepNext, step, hs, ht, hc, h]
      · simp [stepNext, step, hs, h]
    | prepareRun d =>
      by_cases hs : s.state = .PrepareScan
      · rcases hpd : prepareDocument d with exc | props
        · cases exc with
          | native m => simp [stepNext, step, hs, hpd, h]
          | scan c m => simp [stepNext, step, hs, hpd]
        · simp [stepNext, step, hs, hpd, h]
      · simp [stepNext, step, hs, h]
    | scanRun failAt =>
      by_cases hs : s.state = .ScanPDF
      · rcases hp : s.pdfProperties with _ | props
        · simp [stepNext, step, hs, hp, h]
        · by_cases hc : props.pageCount ≤ 0
          · simp [stepNext, step, hs, hp, hc, h]
          · rcases hsp : scanPages (padSize props.pageCount.toNat) failAt
                (List.range props.pageCount.toNat) with ⟨files, oexc⟩
            cases oexc <;> simp [stepNext, step, hs, hp, hc, hsp, h]
      · simp [stepNext, step, hs, h]
    | anotherAns ans =>
      by_cases hs : s.state = .AnotherPDF
      · by_cases hy : ans = "y" ∨ ans = "Y" <;> simp [stepNext, step, hs, hy, h]
      · simp [stepNext, step, hs, h]
    | closeGo =>
      by_cases hs : s.state = .CloseSession <;> simp [stepNext, step, hs, h]
  · cases e <;> simp [stepNext, step, h]

theorem run_invariant_aux (es : List Event) (s : Session)
    (h : s.retCode = .NoError ∨ s.state = .CloseSession) :
    (run s es).retCode = .NoError ∨ (run s es).state = .CloseSession := by
  induction es generalizing s with
  | nil => exact h
  | cons e es ih => exact ih (stepNext s e) (stepNext_invariant s e h)

/-- A session that has not yet reached `CloseSession` still has the initial
`NoError` outcome: `ret_code` is only ever set in the same iteration that
moves the state to `CloseSession`. -/
theorem run_invariant (es : List Event) :
    (run initSession es).retCode = .NoError ∨
      (run initSession es).state = .CloseSession :=
  run_invariant_aux es initSession (Or.inl rfl)

theorem step_dst_unchanged (s : Session) (e : Event) (s1 : Session)
    (hstep : step s e = .next s1) (hne : s.state ≠ .DestinationDirectory) :
    s1.dstDirectory = s.dstDirectory := by
  cases e with
  | interrupt => simp [step] at hstep
  | startGo launchOk =>
    by_cases hs : s.state = .Start
    · cases launchOk <;> simp [step, hs] at hstep <;> subst hstep <;> rfl
    · simp [step, hs] at hstep
      subst hstep
      rfl
  | loginGo =>
    by_cases hs : s.state = .Login <;> simp [step, hs] at hstep <;> subst hstep <;> rfl
  | openGo found =>
    by_cases hs : s.state = .OpenPDF
    · cases found <;> simp [step, hs] at hstep <;> subst hstep <;> rfl
    · simp [step, hs] at hstep
      subst hstep
      rfl
  | destInput text pathExists confirm mkdirOk =>
    rw [step] at hstep
    rw [if_neg hne] at hstep
    cases hstep
    rfl
  | prepareRun d =>
    by_cases hs : s.state = .PrepareScan
    · rcases hpd : prepareDocument d with exc | props
      · cases exc with
        | native m => simp [step, hs, hpd] at hstep
        | scan c m =>
          simp [step, hs, hpd] at hstep
          subst hstep
          rfl
      · simp [step, hs, hpd] at hstep
        subst hstep
        rfl
    · simp [step, hs] at hstep
      subst hstep
      rfl
  | scanRun failAt =>
    by_cases hs : s.state = .ScanPDF
    · rcases hp : s.pdfProperties with _ | props
      · simp [step, hs, hp] at hstep
      · by_cases hc : props.pageCount ≤ 0
        · simp [step, hs, hp, hc] at hstep
        · rcases hsp : scanPages (padSize props.pageCount.toNat) failAt
              (List.range props.pageCount.toNat) with ⟨files, oexc⟩
          cases oexc <;> simp [step, hs, hp, hc, hsp] at hstep
          subst hstep
          rfl
    · simp [step, hs] at hstep
      subst hstep
      rfl
  | anotherAns ans =>
    by_cases hs : s.state = .AnotherPDF
    · by_cases hy : ans = "y" ∨ ans = "Y" <;> simp [step, hs, hy] at hstep <;>
        subst hstep <;> rfl
    · simp [step, hs] at hstep
      subst hstep
      rfl
  | closeGo =>
    by_cases hs : s.state = .CloseSession
    · simp [step, hs] at hstep
    · simp [step, hs] at hstep
      subst hstep
      rfl

/-! The claims. -/

/-- C1: the claim says `browser.quit()` runs exactly once on every exit path,
including a `PaginationError` raised during `ScanDocument`.  The code violates
this: `ScanException` is raised by `browser_pdf_next_page` but never caught in
the `ScanPDF` state (the loop's `try` catches only `KeyboardInterrupt` and
`EOFError`), so on the trace below — launch, login, open, confirm a
destination, prepare a 3-page document, pagination failure at page 0 — the
exception escapes `run_interactive_cli` with the browser still open and zero
`quit` invocations. -/
theorem c1_pagination_exit_path_skips_quit :
    crashExcOf (runRes initSession tracePaginationFail) =
      some (.scan .PaginationError "Exception while moving to next page of PDF file") ∧
      (resultSession (runRes initSession tracePaginationFail)).browserOpen = true ∧
      (resultSession (runRes initSession tracePaginationFail)).quitCount = 0 := by
  decide

/-- C2: the claim says collaborator exceptions during the five preparation
steps are caught and re-raised as scan-error kinds, and an absent page-count
element closes the session with `PropertiesFetchError`.  The code violates
this: none of the five preparation functions converts collaborator exceptions
into `ScanException`, so when `find_element(By.ID, "numPages")` raises
`NoSuchElementException` the exception passes the `except ScanException`
handler untouched and escapes `run_interactive_cli`: the session never
transitions to `CloseSession`, `ret_code` is still `NoError`, and the browser
is never released. -/
theorem c2_properties_exception_escapes_uncaught :
    crashExcOf (runRes initSession tracePropsFail) =
      some (.native "NoSuchElementException") ∧
      (resultSession (runRes initSession tracePropsFail)).retCode =
        PDFScanError.NoError ∧
      (resultSession (runRes initSession tracePropsFail)).state =
        SessionState.PrepareScan ∧
      (resultSession (runRes initSession tracePropsFail)).quitCount = 0 := by
  decide

/-- C3 counterexample: at page count 11 the pad width `int(log10 11) = 1` is
too small, so the scan loop's file names (`page_10.png` coming after
`page_9.png`) do not sort lexicographically in page order, refuting the claim
as stated. -/
theorem c3_counterexample_eleven_pages :
    (scanFilenames 11).length = 11 ∧ ¬ namesSorted (scanFilenames 11) := by
  decide

/-- C3 (amended): for every page count N ≥ 1 the scan loop produces exactly N
pairwise-distinct file names; the names sort lexicographically in page order
whenever the zero-filled width is uniform, i.e. when the decimal width of
N − 1 is at most `max (int(log10 N)) 1` — which holds for every N ≤ 10 and for
exact powers of 10, but fails e.g. at N = 11. -/
theorem c3_scan_files_names_sort (n : Nat) (h : 1 ≤ n) :
    (scanFilenames n).length = n ∧ (scanFilenames n).Nodup ∧
      ((natDec (n - 1)).length ≤ max (padSize n) 1 →
        namesSorted (scanFilenames n)) :=
  ⟨scanFilenames_length n, scanFilenames_nodup n,
    fun hw => scanFilenames_sorted n hw⟩

/-- C3 witness: the amended claim instantiated at page count 10, where the
uniform-width condition holds and the ten names sort in page order. -/
theorem c3_scan_files_names_sort_witness :
    1 ≤ 10 ∧ ((scanFilenames 10).length = 10 ∧ (scanFilenames 10).Nodup ∧
      ((natDec (10 - 1)).length ≤ max (padSize 10) 1 →
        namesSorted (scanFilenames 10))) :=
  ⟨by decide, c3_scan_files_names_sort 10 (by decide)⟩

/-- C4 counterexample: `DriverError` and `PaginationError` are distinct
failure kinds, yet `CloseSession` passes the same argument `-1` to `sys.exit`
for both, refuting the claimed one-to-one mapping. -/
theorem c4_counterexample_statuses_collide :
    PDFScanError.DriverError ≠ PDFScanError.PaginationError ∧
      exitStatus PDFScanError.DriverError = exitStatus PDFScanError.PaginationError := by
  decide

/-- C4 (amended): every failure kind exits with the same status `-1`, which is
distinct from the success status but does not identify which failure kind
ended the session. -/
theorem c4_failure_exit_status (k : PDFScanError) (h : k ≠ .NoError) :
    exitStatus k = -1 ∧ exitStatus k ≠ exitStatus .NoError := by
  cases k <;> first
    | exact absurd rfl h
    | exact ⟨by decide, by decide⟩

/-- C4 witness: the amended claim instantiated at `LoadError`. -/
theorem c4_failure_exit_status_witness :
    PDFScanError.LoadError ≠ PDFScanError.NoError ∧
      (exitStatus PDFScanError.LoadError = -1 ∧
        exitStatus PDFScanError.LoadError ≠ exitStatus PDFScanError.NoError) :=
  ⟨by decide, c4_failure_exit_status PDFScanError.LoadError (by decide)⟩

/-- C5 counterexample: the operator confirms destination "dirA" (the session
advances to `PrepareScan`), scans the document, answers "y" to scan another
PDF, and — because `AnotherPDF` routes through `OpenPDF` back into
`DestinationDirectory` — enters "dirB", changing the destination path after
its first confirmation. -/
theorem c5_counterexample_second_document_new_directory :
    (run initSession traceFirstDestination).state = SessionState.PrepareScan ∧
      (run initSession traceFirstDestination).dstDirectory = "dirA" ∧
      (run initSession traceSecondDocument).dstDirectory = "dirB" ∧
      ("dirA" : String) ≠ "dirB" := by
  decide

/-- C5 (amended): the destination path is a frame condition of every state
except `DestinationDirectory` — a loop iteration can change `dst_directory`
only when the session is in the `DestinationDirectory` state.  It is not
immutable across "scan another document" loops, because answering "y" at
`AnotherPDF` re-enters `DestinationDirectory` via `OpenPDF`, where the
operator may assign a new path (see the counterexample). -/
theorem c5_dst_changes_only_in_destination_state (s : Session) (e : Event)
    (s1 : Session) (hstep : step s e = .next s1)
    (hne : s1.dstDirectory ≠ s.dstDirectory) :
    s.state = SessionState.DestinationDirectory := by
  by_contra hcon
  exact hne (step_dst_unchanged s e s1 hstep hcon)

/-- C5 witness: a concrete step in the `DestinationDirectory` state that
changes the destination path. -/
theorem c5_dst_changes_only_in_destination_state_witness :
    step destState0 (.destInput "w" true "n" true) = .next destState1 ∧
      destState1.dstDirectory ≠ destState0.dstDirectory ∧
      destState0.state = SessionState.DestinationDirectory :=
  ⟨by decide, by decide,
    c5_dst_changes_only_in_destination_state destState0
      (.destInput "w" true "n" true) destState1 (by decide) (by decide)⟩

/-- C6: in the `DestinationDirectory` state an empty directory name is
rejected: the iteration returns to the very same session — same state, same
(unassigned) destination path — regardless of the filesystem or of any
confirmation answer. -/
theorem c6_empty_directory_input_no_transition (s : Session) (pathExists : Bool)
    (confirm : String) (mkdirOk : Bool) (h : s.state = .DestinationDirectory) :
    step s (.destInput "" pathExists confirm mkdirOk) = .next s := by
  simp [step, h]

/-- C6 witness: the empty-input theorem instantiated at a concrete session in
the `DestinationDirectory` state. -/
theorem c6_empty_directory_input_no_transition_witness :
    destState0.state = SessionState.DestinationDirectory ∧
      step destState0 (.destInput "" true "y" true) = .next destState0 :=
  ⟨by decide, c6_empty_directory_input_no_transition destState0 true "y" true (by decide)⟩

/-- C7: a confirmation answer other than the literal "y" or "Y" — whether the
entered path exists or not — leaves the session in `DestinationDirectory` and
creates no directory; only the affirmative answers can advance the state. -/
theorem c7_nonaffirmative_confirmation_no_side_effects (s : Session)
    (text : String) (pathExists : Bool) (confirm : String) (mkdirOk : Bool)
    (hstate : s.state = .DestinationDirectory) (htext : text ≠ "")
    (hy : confirm ≠ "y") (hY : confirm ≠ "Y") :
    ∃ s1, step s (.destInput text pathExists confirm mkdirOk) = .next s1 ∧
      s1.state = SessionState.DestinationDirectory ∧
      s1.createdDirs = s.createdDirs := by
  refine ⟨{ s with dstDirectory := resolvePath text }, ?_, hstate, rfl⟩
  cases pathExists <;> simp [step, hstate, htext, hy, hY]

/-- C7 witness: the theorem instantiated at a concrete session, a nonempty
directory name, and the empty confirmation answer. -/
theorem c7_nonaffirmative_confirmation_no_side_effects_witness :
    destState0.state = SessionState.DestinationDirectory ∧ ("docs" : String) ≠ "" ∧
      ("" : String) ≠ "y" ∧ ("" : String) ≠ "Y" ∧
      ∃ s1, step destState0 (.destInput "docs" false "" true) = .next s1 ∧
        s1.state = SessionState.DestinationDirectory ∧
        s1.createdDirs = destState0.createdDirs :=
  ⟨by decide, by decide, by decide, by decide,
    c7_nonaffirmative_confirmation_no_side_effects destState0 "docs" false "" true
      (by decide) (by decide) (by decide) (by decide)⟩

/-- C8: in the `AnotherPDF` state of any reachable session, answering "y" or
"Y" moves the session to `OpenPDF`; any other answer moves it to
`CloseSession` with the outcome still `NoError` (no failure can have been
recorded, because recording one jumps straight to `CloseSession`), so the
following `CloseSession` iteration calls `sys.exit 0` — the success status. -/
theorem c8_another_document_transitions (es : List Event) (ans : String)
    (hstate : (run initSession es).state = .AnotherPDF) :
    ((ans = "y" ∨ ans = "Y") →
      step (run initSession es) (.anotherAns ans) =
        .next { run initSession es with state := .OpenPDF }) ∧
    (ans ≠ "y" → ans ≠ "Y" →
      ∃ s1, step (run initSession es) (.anotherAns ans) = .next s1 ∧
        s1.state = SessionState.CloseSession ∧
        s1.retCode = PDFScanError.NoError ∧
        exitCodeOf (step s1 .closeGo) = some 0) := by
  have hret : (run initSession es).retCode = .NoError := by
    rcases run_invariant es with h | h
    · exact h
    · rw [hstate] at h
      exact absurd h (by decide)
  constructor
  · intro hy
    rcases hy with rfl | rfl <;> simp [step, hstate]
  · intro hy hY
    refine ⟨{ run initSession es with state := .CloseSession }, ?_, rfl, hret, ?_⟩
    · simp [step, hstate, hy, hY]
    · simp [step, exitCodeOf, exitStatus, hret]

/-- C8 witness: the theorem instantiated on the happy trace (which ends in
`AnotherPDF`) with the answer "n". -/
theorem c8_another_document_transitions_witness :
    (run initSession traceHappy).state = SessionState.AnotherPDF ∧
      ((("n" : String) = "y" ∨ ("n" : String) = "Y") →
        step (run initSession traceHappy) (.anotherAns "n") =
          .next { run initSession traceHappy with state := .OpenPDF }) ∧
      (("n" : String) ≠ "y" → ("n" : String) ≠ "Y" →
        ∃ s1, step (run initSession traceHappy) (.anotherAns "n") = .next s1 ∧
          s1.state = SessionState.CloseSession ∧
          s1.retCode = PDFScanError.NoError ∧
          exitCodeOf (step s1 .closeGo) = some 0) :=
  ⟨by decide, (c8_another_document_transitions traceHappy "n" (by decide)).1,
    (c8_another_document_transitions traceHappy "n" (by decide)).2⟩

/-- C9: when either binary path fails `resolve(strict=True)`, `main` prints a
message and falls through without calling `run_interactive_cli`, so the
interpreter exits with status 0 — exactly the status of a fully successful
session — making the abort indistinguishable from success by exit status. -/
theorem c9_unresolvable_paths_exit_like_success (ff gk : Bool)
    (h : ff = false ∨ gk = false) :
    mainRun ff gk = .abortedBeforeStateMachine 0 ∧
      (0 : Int) = exitStatus .NoError := by
  rcases h with h | h <;> subst h <;> simp [mainRun, exitStatus]

/-- C9 witness: the theorem instantiated with an unresolvable firefox path. -/
theorem c9_unresolvable_paths_exit_like_success_witness :
    ((false : Bool) = false ∨ (true : Bool) = false) ∧
      (mainRun false true = .abortedBeforeStateMachine 0 ∧
        (0 : Int) = exitStatus .NoError) :=
  ⟨Or.inl rfl, c9_unresolvable_paths_exit_like_success false true (Or.inl rfl)⟩

/-- C10: within one scan of N ≥ 1 pages the N generated file names are
pairwise distinct: `zfill` never truncates, so even a pad width too small for
lexicographic ordering cannot make two page indices collide. -/
theorem c10_filenames_pairwise_distinct (n : Nat) (h : 1 ≤ n) :
    (scanFilenames n).Nodup :=
  scanFilenames_nodup n

/-- C10 witness: the theorem instantiated at N = 11, a page count whose pad
width is too small for sorting yet whose names are still pairwise distinct. -/
theorem c10_filenames_pairwise_distinct_witness :
    1 ≤ 11 ∧ (scanFilenames 11).Nodup :=
  ⟨by decide, c10_filenames_pairwise_distinct 11 (by decide)⟩

end BrowserPdfScanner
